import Mathlib

/-!
Verification development for the course-enrollment chatbot (src/main.py).

The embedding models:
* the static course catalog `COURSE_INFO` and the derived FAQ table
  `FAQ_RESPONSES` (a Python dict iterated in insertion order, hence an
  association list here);
* the conversation store `conversation_contexts` — a dict from user id to a
  list of exchanges; every read goes through `dict.get(user_id, [])`, so the
  store is modelled as a total function `String → List Exchange` whose default
  is the empty list (deleting a key becomes setting it to `[]`);
* `update_conversation_context`, `get_conversation_context`,
  `generate_ai_response`, and the `/start`, `/chat`, `/register` and
  `/course-info` handlers.

Wall-clock values (`datetime.now()`) are passed in as explicit parameters
(`now : Nat` for the ISO timestamp stored in an exchange, `nowStr : String`
for the formatted stamp in a registration id).  The external OpenAI completion
call and the Google-Sheets append are external collaborators; they are
modelled by the `Completion` and `SheetsService` parameters that enumerate
their outcomes (unconfigured client, raising call, successful call).
-/

namespace CourseBot

/-- Course catalog record, mirroring the `COURSE_INFO` dictionary
(src/main.py lines 35-54). -/
structure CourseInfo where
  name : String
  duration : String
  price : String
  instructor : String
  format : String
  schedule : String
  description : String
  benefits : List String
  prerequisites : String
  support : String
deriving Repr, DecidableEq

/-- The configured course record (src/main.py lines 35-54). -/
def COURSE_INFO : CourseInfo where
  name := "Complete Python Development Bootcamp"
  duration := "12 weeks (3 months)"
  price := "$299"
  instructor := "John Smith"
  format := "Online with live sessions"
  schedule := "Monday, Wednesday, Friday - 7:00 PM to 9:00 PM EST"
  description := "A comprehensive Python development course covering web development, data science, and automation"
  benefits := [
    "Learn Python from beginner to advanced level",
    "Build real-world projects including web applications",
    "Get hands-on experience with popular Python frameworks",
    "Receive a certificate of completion",
    "Access to lifetime course materials",
    "1-on-1 mentorship sessions",
    "Job placement assistance"
  ]
  prerequisites := "No prior programming experience required"
  support := "24/7 support via email and Discord community"

/-- The FAQ table (src/main.py lines 56-67).  A Python dict whose iteration
order is insertion order, hence an association list. -/
def FAQ_RESPONSES : List (String × String) := [
  ("duration", "The course duration is " ++ COURSE_INFO.duration ++ "."),
  ("price", "The course price is " ++ COURSE_INFO.price ++ ". We also offer payment plans if needed."),
  ("benefits", "Course benefits include: " ++ (String.intercalate ", " COURSE_INFO.benefits)),
  ("schedule", "Classes are held " ++ COURSE_INFO.schedule ++ "."),
  ("prerequisites", "Prerequisites: " ++ COURSE_INFO.prerequisites),
  ("instructor", "Your instructor will be " ++ COURSE_INFO.instructor ++ ", an experienced Python developer."),
  ("format", "The course format is " ++ COURSE_INFO.format ++ "."),
  ("support", "We provide " ++ COURSE_INFO.support ++ "."),
  ("registration", "To register, please use the /register endpoint and provide your name, email, and phone number."),
  ("certificate", "Yes, you will receive a certificate of completion after successfully finishing the course.")
]

/-- Python `str.lower()`: per-character case folding (ASCII folding suffices
for this program's keywords and inputs). -/
def pyLower (s : String) : String := String.mk (s.data.map Char.toLower)

/-- Python substring containment `pat in s`. -/
def pyContains (s pat : String) : Bool := decide (pat.toList <:+: s.toList)

/-- One stored exchange: the dict `{"user": ..., "assistant": ..., "timestamp": ...}`
appended by `update_conversation_context`; the wall-clock timestamp is an
abstract `Nat` supplied by the caller. -/
structure Exchange where
  user : String
  assistant : String
  timestamp : Nat
deriving Repr, DecidableEq

/-- The conversation store `conversation_contexts`.  Every read in the source
goes through `dict.get(user_id, [])`, so an absent key is observationally the
empty list; `del` becomes setting the key to `[]`. -/
def ConvStore : Type := String → List Exchange

/-- The store with no history for any key. -/
def emptyStore : ConvStore := fun _ => []

/-- Model of `get_conversation_context` (src/main.py lines 179-181). -/
def get_conversation_context (user_id : String) (store : ConvStore) : List Exchange :=
  store user_id

/-- Model of `update_conversation_context` (src/main.py lines 183-196): append the new
exchange, then truncate to the last 5 entries when the length exceeds 5. -/
def update_conversation_context (user_id user_message bot_response : String)
    (now : Nat) (store : ConvStore) : ConvStore :=
  let h := store user_id ++ [⟨user_message, bot_response, now⟩]
  fun k => if k = user_id then (if 5 < h.length then h.drop (h.length - 5) else h) else store k

/-- The string `benefits_text` computed inside `get_system_prompt` (src/main.py line 202). -/
def benefitsText : String := String.intercalate "\n" (COURSE_INFO.benefits.map (fun b => "- " ++ b))

/-- Model of `get_system_prompt` (src/main.py lines 200-231). -/
def get_system_prompt : String :=
  "\nYou are a helpful AI assistant for the \"" ++ COURSE_INFO.name ++ "\" course. \n\nCOURSE DETAILS:\n- Course Name: " ++ COURSE_INFO.name ++ "\n- Duration: " ++ COURSE_INFO.duration ++ "\n- Price: " ++ COURSE_INFO.price ++ "\n- Instructor: " ++ COURSE_INFO.instructor ++ "\n- Format: " ++ COURSE_INFO.format ++ "\n- Schedule: " ++ COURSE_INFO.schedule ++ "\n- Prerequisites: " ++ COURSE_INFO.prerequisites ++ "\n- Support: " ++ COURSE_INFO.support ++ "\n\nCOURSE BENEFITS:\n" ++ benefitsText ++ "\n\nCOURSE DESCRIPTION:\n" ++ COURSE_INFO.description ++ "\n\nYour role is to:\n1. Greet users warmly and introduce the course\n2. Answer questions about the course details, pricing, schedule, benefits, etc.\n3. Help users with the registration process\n4. Be friendly, informative, and encouraging\n5. If asked about registration, guide them to provide their name, email, and phone number\n\nKeep responses conversational and helpful. If you don\x27t know something specific about the course, refer them to contact support.\n"

/-- The fixed welcome template returned by the greeting rule of
`generate_ai_response` (src/main.py lines 238-255); the non-ASCII characters
are the exact code points of the source file. -/
def greetingWelcome : String :=
  "Hello! üëã Welcome to our " ++ COURSE_INFO.name ++ " information assistant!\n\nI\x27m here to help you learn about our comprehensive Python development course. Here\x27s what I can help you with:\n\nüìö **Course Overview:** " ++ COURSE_INFO.description ++ "\n‚è∞ **Duration:** " ++ COURSE_INFO.duration ++ "\nüí∞ **Price:** " ++ COURSE_INFO.price ++ "\nüìÖ **Schedule:** " ++ COURSE_INFO.schedule ++ "\n\nFeel free to ask me about:\n- Course details and curriculum\n- Pricing and payment options\n- Schedule and format\n- Benefits and what you\x27ll learn\n- How to register\n- Any other questions!\n\nWhat would you like to know about the course?"

/-- The token set of the greeting rule (src/main.py line 237). -/
def GREETINGS : List String := ["hello", "hi", "hey", "start", "help"]

/-- One role-tagged message sent to the completion service. -/
structure ChatMsg where
  role : String
  content : String
deriving Repr, DecidableEq

/-- The message list built for the completion call (src/main.py lines 263-272):
system prompt, then each stored exchange replayed as a user/assistant pair in
order, then the current message. -/
def buildMessages (user_message : String) (context : List Exchange) : List ChatMsg :=
  ⟨"system", get_system_prompt⟩ ::
    ((context.map (fun e => [⟨"user", e.user⟩, ⟨"assistant", e.assistant⟩])).flatten
      ++ [⟨"user", user_message⟩])

/-- The external completion collaborator: the client may be unconfigured
(`openai_client is None`), the API call may raise, or it may return a content
string (`none` models a null content field). -/
inductive Completion where
  | unconfigured
  | failing
  | succeeding (complete : List ChatMsg → Option String)

/-- Canned reply when the client is unconfigured (src/main.py line 276). -/
def unavailableApology : String := "I\x27m sorry, the AI service is not available right now. Please try again later or contact support."

/-- Canned reply when the API call raises (src/main.py lines 287 and 294). -/
def errorApology : String := "I\x27m sorry, I\x27m having trouble processing your request right now. Please try again or contact our support team for assistance."

/-- Canned reply when the API returns empty content (src/main.py line 290). -/
def noContentApology : String := "I\x27m sorry, I couldn\x27t generate a response."

/-- Model of `generate_ai_response` (src/main.py lines 233-294): greeting rule, then
FAQ rule (first matching key in insertion order), then delegation to the
completion service with graceful degradation on unavailability or failure. -/
def generate_ai_response (user_message : String) (context : List Exchange)
    (client : Completion) : String :=
  if context.isEmpty && GREETINGS.any (fun g => pyContains (pyLower user_message) g) then
    greetingWelcome
  else
    let user_lower := pyLower user_message
    match FAQ_RESPONSES.find? (fun kv => pyContains user_lower kv.1) with
    | some kv => kv.2
    | none =>
      let messages := buildMessages user_message context
      match client with
      | .unconfigured => unavailableApology
      | .failing => errorApology
      | .succeeding complete =>
        match complete messages with
        | some content => if content = "" then noContentApology else content.trim
        | none => noContentApology

/-- The body of a `ChatResponse` (src/main.py lines 116-119). -/
structure ChatResponse where
  response : String
  context_length : Nat
  timestamp : Nat
deriving Repr, DecidableEq

/-- The per-benefit line prefix of the `/start` welcome (inner f-string of
src/main.py line 341). -/
def startBenefitMark : String := "‚úÖ "

/-- The welcome message built by the `/start` handler (src/main.py
lines 329-345). -/
def startWelcomeMessage : String :=
  "üéâ Welcome to " ++ COURSE_INFO.name ++ "!\n\nI\x27m your personal course assistant, here to help you learn everything about our Python development program.\n\n**Quick Course Overview:**\nüìö **Course:** " ++ COURSE_INFO.name ++ "\n‚è∞ **Duration:** " ++ COURSE_INFO.duration ++ "\nüí∞ **Investment:** " ++ COURSE_INFO.price ++ "\nüë®‚Äçüíª **Instructor:** " ++ COURSE_INFO.instructor ++ "\nüì± **Format:** " ++ COURSE_INFO.format ++ "\n\n**What you\x27ll get:**\n" ++ (String.intercalate "\n" ((COURSE_INFO.benefits.take 5).map (fun b => startBenefitMark ++ b))) ++ "\n\nType \x27info\x27 for detailed course information, \x27faq\x27 for common questions, or \x27register\x27 to secure your spot!\n\nWhat would you like to know? ü§î"

/-- Model of `start_conversation`, the `/start` handler (src/main.py lines 317-357):
delete any stored history for the user, build the fixed welcome, append the
exchange `("/start", welcome)`, and report the new history length. -/
def start_conversation (user_id message : String) (now : Nat)
    (store : ConvStore) : ChatResponse × ConvStore :=
  let store1 : ConvStore := fun k => if k = user_id then [] else store k
  let welcome_message := startWelcomeMessage
  let store2 := update_conversation_context user_id "/start" welcome_message now store1
  (⟨welcome_message, (get_conversation_context user_id store2).length, now⟩, store2)

/-- Model of `chat_with_bot`, the `/chat` handler (src/main.py lines 359-379): read the
stored context, produce the response, append the exchange, and report the new
history length. -/
def chat_with_bot (user_id message : String) (client : Completion) (now : Nat)
    (store : ConvStore) : ChatResponse × ConvStore :=
  let context := get_conversation_context user_id store
  let bot_response := generate_ai_response message context client
  let store2 := update_conversation_context user_id message bot_response now store
  (⟨bot_response, (get_conversation_context user_id store2).length, now⟩, store2)

/-- A registration request body (src/main.py lines 110-114). -/
structure RegistrationData where
  name : String
  email : String
  phone : String
  user_id : Option String
deriving Repr, DecidableEq

/-- The external spreadsheet collaborator: credentials may be missing
(`setup_google_sheets` returns `None`), the open/append calls may raise,
or the append may succeed. -/
inductive SheetsService where
  | unconfigured
  | failing
  | working
deriving Repr, DecidableEq

/-- Model of `save_to_google_sheets` (src/main.py lines 145-175): returns `False` when
the client is unconfigured or any call raises, `True` on a successful append;
no exception ever escapes. -/
def save_to_google_sheets (registration_data : RegistrationData)
    (svc : SheetsService) : Bool :=
  match svc with
  | .unconfigured => false
  | .failing => false
  | .working => true

/-- The fragment `registration.name[:3].upper()` of the registration id. -/
def regNameFragment (name : String) : String :=
  String.mk ((name.toList.take 3).map Char.toUpper)

/-- The confirmation branch shown on a successful save (src/main.py line 397). -/
def savedNotice : String := "‚úÖ **Saved to our system successfully!**"

/-- The degraded confirmation branch shown when the save failed
(src/main.py line 397). -/
def degradedNotice : String := "‚ö†Ô∏è **Registration received but there was an issue with our system. We will contact you shortly.**"

/-- The confirmation message built by the `/register` handler
(src/main.py lines 389-408). -/
def confirmation_message (registration : RegistrationData) (sheets_success : Bool) : String :=
  "üéâ Thank you for registering, " ++ registration.name ++ "!\n\n**Registration Details:**\n‚úÖ **Name:** " ++ registration.name ++ "\n‚úÖ **Email:** " ++ registration.email ++ "\n‚úÖ **Phone:** " ++ registration.phone ++ "\n‚úÖ **Course:** " ++ COURSE_INFO.name ++ "\n\n" ++ (if sheets_success then savedNotice else degradedNotice) ++ "\n\n**What\x27s Next:**\n1. You\x27ll receive a confirmation email within 24 hours\n2. Course materials will be sent 1 week before start date\n3. You\x27ll get access to our Discord community\n4. Payment instructions will be included in the confirmation email\n\n**Course starts:** Contact us for the next batch schedule\n**Need help?** Reply here or email support@ourcompany.com\n\nWelcome to the " ++ COURSE_INFO.name ++ " family! üêç‚ú®"

/-- The body returned by the `/register` handler (src/main.py lines 418-423). -/
structure RegisterResponse where
  success : Bool
  message : String
  registration_id : String
  sheets_saved : Bool
deriving Repr, DecidableEq

/-- Model of `register_for_course`, the `/register` handler (src/main.py
lines 381-426): always forward to the recorder, build the confirmation with a
saved/degraded branch, record the exchange only when a non-empty `user_id`
was supplied (Python truthiness of `registration.user_id`), and answer with
`success=True` regardless of the recorder outcome. -/
def register_for_course (registration : RegistrationData) (svc : SheetsService)
    (now : Nat) (nowStr : String) (store : ConvStore) : RegisterResponse × ConvStore :=
  let sheets_success := save_to_google_sheets registration svc
  let msg := confirmation_message registration sheets_success
  let store2 :=
    match registration.user_id with
    | some uid =>
      if uid = "" then store
      else update_conversation_context uid
        ("Registration: " ++ registration.name ++ ", " ++ registration.email ++ ", " ++ registration.phone)
        msg now store
    | none => store
  (⟨true, msg, "REG_" ++ nowStr ++ "_" ++ regNameFragment registration.name, sheets_success⟩, store2)

/-- The `registration_info` block of the `/course-info` response
(src/main.py lines 434-437). -/
structure RegistrationInfo where
  process : String
  requirements : List String
deriving Repr, DecidableEq

/-- The body returned by `/course-info` (src/main.py lines 428-438). -/
structure CourseInfoResponse where
  course_details : CourseInfo
  faqs : List (String × String)
  registration_info : RegistrationInfo
deriving Repr, DecidableEq

/-- Model of `get_course_info`, the `/course-info` handler (src/main.py
lines 428-438). -/
def get_course_info : CourseInfoResponse :=
  ⟨COURSE_INFO, FAQ_RESPONSES,
   ⟨"Use the /register endpoint with name, email, and phone",
    ["Valid email address", "Phone number", "Full name"]⟩⟩

/-- One call to `update_conversation_context`, as issued by the `/chat`,
`/start` and `/register` handlers. -/
structure AppendOp where
  uid : String
  umsg : String
  bmsg : String
  now : Nat
deriving Repr, DecidableEq

/-- The exchange an append operation stores. -/
def exchangeOf (o : AppendOp) : Exchange := ⟨o.umsg, o.bmsg, o.now⟩

/-- Replay a sequence of `update_conversation_context` calls on a store. -/
def applyOps (ops : List AppendOp) (store : ConvStore) : ConvStore :=
  ops.foldl (fun s o => update_conversation_context o.uid o.umsg o.bmsg o.now s) store

/-- The 5 most recent elements of a history (all of it when shorter). -/
def lastFive (l : List Exchange) : List Exchange := l.drop (l.length - 5)

/-! ### Lemmas about the conversation store -/

theorem lastFive_of_le (l : List Exchange) (h : l.length ≤ 5) : lastFive l = l := by
  simp [lastFive, Nat.sub_eq_zero_of_le h]

theorem lastFive_length_le (l : List Exchange) : (lastFive l).length ≤ 5 := by
  simp only [lastFive, List.length_drop]
  omega

theorem update_conversation_context_self (user_id um bm : String) (now : Nat)
    (store : ConvStore) :
    update_conversation_context user_id um bm now store user_id
      = lastFive (store user_id ++ [Exchange.mk um bm now]) := by
  have hstep : update_conversation_context user_id um bm now store user_id
      = (if 5 < (store user_id ++ [Exchange.mk um bm now]).length
         then (store user_id ++ [Exchange.mk um bm now]).drop
                ((store user_id ++ [Exchange.mk um bm now]).length - 5)
         else store user_id ++ [Exchange.mk um bm now]) := by
    simp [update_conversation_context]
  rw [hstep]
  by_cases h5 : 5 < (store user_id ++ [Exchange.mk um bm now]).length
  · rw [if_pos h5]
    rfl
  · rw [if_neg h5, lastFive_of_le _ (Nat.le_of_not_lt h5)]

theorem update_conversation_context_other (user_id um bm : String) (now : Nat)
    (store : ConvStore) (k : String) (hk : k ≠ user_id) :
    update_conversation_context user_id um bm now store k = store k := by
  simp [update_conversation_context, hk]

theorem lastFive_append_single (l : List Exchange) (e : Exchange) :
    lastFive (lastFive l ++ [e]) = lastFive (l ++ [e]) := by
  by_cases h : l.length ≤ 5
  · rw [lastFive_of_le l h]
  · have hn : 5 < l.length := Nat.lt_of_not_le h
    have hlen : (lastFive l).length = 5 := by
      simp only [lastFive, List.length_drop]
      omega
    show (lastFive l ++ [e]).drop ((lastFive l ++ [e]).length - 5)
        = (l ++ [e]).drop ((l ++ [e]).length - 5)
    rw [List.length_append, List.length_append, hlen]
    rw [List.drop_append_of_le_length (by simp [hlen] : 5 + [e].length - 5 ≤ (lastFive l).length)]
    rw [List.drop_append_of_le_length
      (by simp only [List.length_cons, List.length_nil]; omega
        : l.length + [e].length - 5 ≤ l.length)]
    show (lastFive l).drop 1 ++ [e] = l.drop (l.length + 1 - 5) ++ [e]
    unfold lastFive
    rw [List.drop_drop]
    have harith : l.length - 5 + 1 = l.length + 1 - 5 := by omega
    rw [harith]

theorem applyOps_cons (o : AppendOp) (ops : List AppendOp) (store : ConvStore) :
    applyOps (o :: ops) store
      = applyOps ops (update_conversation_context o.uid o.umsg o.bmsg o.now store) := rfl

theorem applyOps_apply (ops : List AppendOp) (store : ConvStore) (u : String) :
    applyOps ops store u
      = ((ops.filter (fun o => o.uid == u)).map exchangeOf).foldl
          (fun h e => lastFive (h ++ [e])) (store u) := by
  induction ops generalizing store with
  | nil => rfl
  | cons o ops ih =>
    rw [applyOps_cons, ih]
    by_cases hu : o.uid = u
    · subst hu
      rw [List.filter_cons_of_pos (by simp)]
      rw [List.map_cons, List.foldl_cons, update_conversation_context_self]
      rfl
    · rw [List.filter_cons_of_neg (by simp [hu])]
      rw [update_conversation_context_other _ _ _ _ _ _ (fun he => hu he.symm)]

theorem foldl_lastFive (es : List Exchange) (L : List Exchange) :
    es.foldl (fun h e => lastFive (h ++ [e])) (lastFive L) = lastFive (L ++ es) := by
  induction es generalizing L with
  | nil => simp
  | cons e es ih =>
    rw [List.foldl_cons, lastFive_append_single, ih (L ++ [e])]
    simp [List.append_assoc]

theorem applyOps_emptyStore (ops : List AppendOp) (u : String) :
    applyOps ops emptyStore u
      = lastFive ((ops.filter (fun o => o.uid == u)).map exchangeOf) := by
  rw [applyOps_apply]
  rw [show emptyStore u = lastFive [] from rfl, foldl_lastFive, List.nil_append]

/-! ### Lemmas about substring containment -/

theorem pyContains_true_iff (s pat : String) :
    pyContains s pat = true ↔ pat.toList <:+: s.toList := by
  simp [pyContains]

theorem pyContains_of_eq_append (s pre pat post : String)
    (h : s.toList = pre.toList ++ (pat.toList ++ post.toList)) :
    pyContains s pat = true := by
  rw [pyContains_true_iff, h]
  exact ⟨pre.toList, post.toList, by simp⟩

/-! ### Lemmas about the response router -/

theorem generate_ai_response_faq (msg : String) (ctx : List Exchange) (hc : ctx ≠ [])
    (kv : String × String)
    (hfind : FAQ_RESPONSES.find? (fun p => pyContains (pyLower msg) p.1) = some kv)
    (client : Completion) :
    generate_ai_response msg ctx client = kv.2 := by
  have hie : ctx.isEmpty = false := by
    cases ctx with
    | nil => exact absurd rfl hc
    | cons a l => rfl
  unfold generate_ai_response
  simp [hie, hfind]

theorem generate_ai_response_greeting (msg : String)
    (hg : GREETINGS.any (fun g => pyContains (pyLower msg) g) = true)
    (client : Completion) :
    generate_ai_response msg [] client = greetingWelcome := by
  unfold generate_ai_response
  simp [hg]

theorem generate_ai_response_fallback (msg : String) (ctx : List Exchange)
    (hg : (ctx.isEmpty && GREETINGS.any (fun g => pyContains (pyLower msg) g)) = false)
    (hfind : FAQ_RESPONSES.find? (fun p => pyContains (pyLower msg) p.1) = none) :
    generate_ai_response msg ctx Completion.unconfigured = unavailableApology ∧
    generate_ai_response msg ctx Completion.failing = errorApology := by
  constructor <;> (unfold generate_ai_response; simp [hg, hfind])

/-! ### Claim theorems -/

/-- C1: for every user key and every sequence of `update_conversation_context`
calls (the only mutation the `/chat`, `/start` and `/register` handlers
perform), the stored history for that key has length at most 5 after every
mutation, and after 6 or more appends to that key it has length exactly 5 and
consists of the 5 most recently appended exchanges in append order. -/
theorem context_window_invariant (ops : List AppendOp) (u : String) :
    (applyOps ops emptyStore u).length ≤ 5 ∧
    (6 ≤ (ops.filter (fun o => o.uid == u)).length →
      (applyOps ops emptyStore u).length = 5 ∧
      applyOps ops emptyStore u
        = ((ops.filter (fun o => o.uid == u)).map exchangeOf).drop
            (((ops.filter (fun o => o.uid == u)).map exchangeOf).length - 5)) := by
  rw [applyOps_emptyStore]
  refine ⟨lastFive_length_le _, fun h6 => ⟨?_, rfl⟩⟩
  have hm : ((ops.filter (fun o => o.uid == u)).map exchangeOf).length
      = (ops.filter (fun o => o.uid == u)).length := List.length_map _ _
  simp only [lastFive, List.length_drop, hm]
  omega

/-- A concrete run of 7 appends, 6 of them for user `"u"`. -/
def opsW : List AppendOp :=
  [⟨"u", "m1", "b1", 1⟩, ⟨"u", "m2", "b2", 2⟩, ⟨"v", "x", "y", 3⟩,
   ⟨"u", "m3", "b3", 4⟩, ⟨"u", "m4", "b4", 5⟩, ⟨"u", "m5", "b5", 6⟩,
   ⟨"u", "m6", "b6", 7⟩]

/-- Witness for C1 at a concrete sequence of 6 appends to `"u"`. -/
theorem context_window_invariant_witness :
    (applyOps opsW emptyStore "u").length ≤ 5 ∧
    ((applyOps opsW emptyStore "u").length = 5 ∧
      applyOps opsW emptyStore "u"
        = ((opsW.filter (fun o => o.uid == "u")).map exchangeOf).drop
            (((opsW.filter (fun o => o.uid == "u")).map exchangeOf).length - 5)) :=
  ⟨(context_window_invariant opsW "u").1,
   (context_window_invariant opsW "u").2 (by decide)⟩

set_option maxRecDepth 100000

/-- C4: when the lowercased message contains some FAQ key as a substring and
the stored history is non-empty, the response is the precomputed answer of the
first matching key in the table's insertion order (the head of `find?` over
the association list), no completion call is made (the response is identical
for every state of the completion client), and the answer is independent of
the history contents and length. -/
theorem faq_rule (msg : String) (kv : String × String)
    (hfind : FAQ_RESPONSES.find? (fun p => pyContains (pyLower msg) p.1) = some kv)
    (ctx ctx' : List Exchange) (hc : ctx ≠ []) (hc' : ctx' ≠ [])
    (client client' : Completion) :
    generate_ai_response msg ctx client = kv.2 ∧
    generate_ai_response msg ctx client = generate_ai_response msg ctx' client' := by
  refine ⟨generate_ai_response_faq msg ctx hc kv hfind client, ?_⟩
  rw [generate_ai_response_faq msg ctx hc kv hfind client,
    generate_ai_response_faq msg ctx' hc' kv hfind client']

/-- Witness for C4: a message containing the substring `"price"`, with two
different non-empty histories and two different client states, gets the price
FAQ's literal answer. -/
theorem faq_rule_witness :
    generate_ai_response "What is the price?" [⟨"hi", "yo", 0⟩] Completion.unconfigured
      = "The course price is $299. We also offer payment plans if needed." ∧
    generate_ai_response "What is the price?" [⟨"hi", "yo", 0⟩] Completion.unconfigured
      = generate_ai_response "What is the price?" [⟨"a", "b", 1⟩, ⟨"c", "d", 2⟩]
          Completion.failing :=
  faq_rule "What is the price?"
    ("price", "The course price is $299. We also offer payment plans if needed.")
    (by decide) [⟨"hi", "yo", 0⟩] [⟨"a", "b", 1⟩, ⟨"c", "d", 2⟩]
    (by decide) (by decide) Completion.unconfigured Completion.failing

/-- C5: when the stored history is empty and the lowercased message contains
one of the greeting tokens, the response is the fixed welcome template, which
contains the course name, description, duration, price and schedule, and no
completion call is made (the response is identical for every state of the
completion client). -/
theorem greeting_rule (msg : String)
    (hg : GREETINGS.any (fun g => pyContains (pyLower msg) g) = true)
    (client client' : Completion) :
    generate_ai_response msg [] client = greetingWelcome ∧
    generate_ai_response msg [] client = generate_ai_response msg [] client' ∧
    ([COURSE_INFO.name, COURSE_INFO.description, COURSE_INFO.duration,
      COURSE_INFO.price, COURSE_INFO.schedule].all
        (fun f => pyContains greetingWelcome f)) = true := by
  refine ⟨generate_ai_response_greeting msg hg client, ?_, by decide⟩
  rw [generate_ai_response_greeting msg hg client,
    generate_ai_response_greeting msg hg client']

/-- Witness for C5: the exact message `"hello"` with empty history yields the
welcome template (hence a response containing the course name) without
invoking the fallback path (the unconfigured and the failing client agree). -/
theorem greeting_rule_witness :
    generate_ai_response "hello" [] Completion.unconfigured = greetingWelcome ∧
    generate_ai_response "hello" [] Completion.unconfigured
      = generate_ai_response "hello" [] Completion.failing ∧
    ([COURSE_INFO.name, COURSE_INFO.description, COURSE_INFO.duration,
      COURSE_INFO.price, COURSE_INFO.schedule].all
        (fun f => pyContains greetingWelcome f)) = true :=
  greeting_rule "hello" (by decide) Completion.unconfigured Completion.failing

/-- C6: for a message matching neither the greeting rule nor the FAQ rule,
an unconfigured client yields the fixed service-unavailable apology and a
failing completion call yields the fixed error apology; both canned strings
ask the caller to retry or contact support, and the failure is returned as an
ordinary response string, never propagated as an error. -/
theorem fallback_degrades (msg : String) (ctx : List Exchange)
    (hg : (ctx.isEmpty && GREETINGS.any (fun g => pyContains (pyLower msg) g)) = false)
    (hfind : FAQ_RESPONSES.find? (fun p => pyContains (pyLower msg) p.1) = none) :
    generate_ai_response msg ctx Completion.unconfigured = unavailableApology ∧
    generate_ai_response msg ctx Completion.failing = errorApology ∧
    pyContains unavailableApology "try again" = true ∧
    pyContains unavailableApology "support" = true ∧
    pyContains errorApology "try again" = true ∧
    pyContains errorApology "support" = true := by
  obtain ⟨h1, h2⟩ := generate_ai_response_fallback msg ctx hg hfind
  exact ⟨h1, h2, by decide, by decide, by decide, by decide⟩

/-- Witness for C6: the message `"tell me about python"` (no greeting token,
no FAQ key) with empty history degrades to the canned apologies. -/
theorem fallback_degrades_witness :
    generate_ai_response "tell me about python" [] Completion.unconfigured
      = unavailableApology ∧
    generate_ai_response "tell me about python" [] Completion.failing = errorApology ∧
    pyContains unavailableApology "try again" = true ∧
    pyContains unavailableApology "support" = true ∧
    pyContains errorApology "try again" = true ∧
    pyContains errorApology "support" = true :=
  fallback_degrades "tell me about python" [] (by decide) (by decide)

/-- After `/start`, the user's stored history is exactly the single exchange
`("/start", welcome)`, whatever was stored before. -/
theorem start_conversation_store (user_id message : String) (now : Nat)
    (store : ConvStore) :
    get_conversation_context user_id (start_conversation user_id message now store).2
      = [Exchange.mk "/start" startWelcomeMessage now] := by
  show update_conversation_context user_id "/start" startWelcomeMessage now
      (fun k => if k = user_id then [] else store k) user_id
      = [Exchange.mk "/start" startWelcomeMessage now]
  rw [update_conversation_context_self]
  simp [lastFive]

/-- C3: `/start` removes any previously stored history for the user (the
resulting history is the single new exchange whatever the prior store held),
returns the fixed greeting-style welcome containing the course name, and
reports history length 1. -/
theorem start_clears_and_greets (user_id message : String) (now : Nat)
    (store : ConvStore) :
    (start_conversation user_id message now store).1.context_length = 1 ∧
    (start_conversation user_id message now store).1.response = startWelcomeMessage ∧
    get_conversation_context user_id (start_conversation user_id message now store).2
      = [Exchange.mk "/start" startWelcomeMessage now] ∧
    pyContains startWelcomeMessage COURSE_INFO.name = true := by
  have hs := start_conversation_store user_id message now store
  refine ⟨?_, rfl, hs, by decide⟩
  show (get_conversation_context user_id (start_conversation user_id message now store).2).length = 1
  rw [hs]
  rfl

/-- Counterexample to C2 as stated: at user `"u"`, `/start` followed
immediately by `/chat` returns `context_length = 2`, not 1 (the `/chat`
handler appends the new exchange before measuring the history). -/
theorem start_then_chat_not_one :
    (chat_with_bot "u" "hello" Completion.unconfigured 1
        (start_conversation "u" "hi" 0 emptyStore).2).1.context_length ≠ 1 := by
  decide

/-- C2 (amended): for every user, a `/start` call followed immediately by a
`/chat` call for the same user returns `context_length = 2` in the `/chat`
response. -/
theorem start_then_chat_context_length_two (user_id m1 m2 : String)
    (client : Completion) (n1 n2 : Nat) (store : ConvStore) :
    (chat_with_bot user_id m2 client n2
        (start_conversation user_id m1 n1 store).2).1.context_length = 2 := by
  have hs := start_conversation_store user_id m1 n1 store
  simp only [get_conversation_context] at hs
  show (update_conversation_context user_id m2
      (generate_ai_response m2
        (get_conversation_context user_id (start_conversation user_id m1 n1 store).2) client)
      n2 (start_conversation user_id m1 n1 store).2 user_id).length = 2
  rw [update_conversation_context_self, hs]
  simp [lastFive]

/-- C7: the `/register` handler always consults the recorder (its reported
`sheets_saved` flag is exactly the recorder's result for this registration),
always answers `success = true`, and when the recorder fails the confirmation
message carries the degraded notice; a registration is never rejected for
recorder failure. -/
theorem register_tolerates_failure (registration : RegistrationData)
    (svc : SheetsService) (now : Nat) (nowStr : String) (store : ConvStore) :
    (register_for_course registration svc now nowStr store).1.success = true ∧
    (register_for_course registration svc now nowStr store).1.sheets_saved
      = save_to_google_sheets registration svc ∧
    (save_to_google_sheets registration svc = false →
      pyContains (register_for_course registration svc now nowStr store).1.message
        degradedNotice = true) := by
  refine ⟨rfl, rfl, fun hfail => ?_⟩
  show pyContains
      (confirmation_message registration (save_to_google_sheets registration svc))
      degradedNotice = true
  rw [hfail]
  apply pyContains_of_eq_append _
    ("\uf8ff\u00fc\u00e9\u00e2 Thank you for registering, " ++ registration.name ++ "!\n\n**Registration Details:**\n\u201a\u00fa\u00d6 **Name:** " ++ registration.name ++ "\n\u201a\u00fa\u00d6 **Email:** " ++ registration.email ++ "\n\u201a\u00fa\u00d6 **Phone:** " ++ registration.phone ++ "\n\u201a\u00fa\u00d6 **Course:** " ++ COURSE_INFO.name ++ "\n\n")
    degradedNotice
    ("\n\n**What\x27s Next:**\n1. You\x27ll receive a confirmation email within 24 hours\n2. Course materials will be sent 1 week before start date\n3. You\x27ll get access to our Discord community\n4. Payment instructions will be included in the confirmation email\n\n**Course starts:** Contact us for the next batch schedule\n**Need help?** Reply here or email support@ourcompany.com\n\nWelcome to the " ++ COURSE_INFO.name ++ " family! \uf8ff\u00fc\u00ea\u00e7\u201a\u00fa\u00ae")
  simp only [confirmation_message, degradedNotice, Bool.false_eq_true, if_false,
    String.toList, String.data_append, List.append_assoc]

/-- A concrete registration request. -/
def regW : RegistrationData := ⟨"John Doe", "john.doe@example.com", "+1-555-0123", some "u"⟩

/-- Witness for C7: with the spreadsheet service failing, registration still
succeeds, reports `sheets_saved = false`, and shows the degraded notice. -/
theorem register_tolerates_failure_witness :
    (register_for_course regW SheetsService.failing 0 "20250101_000000" emptyStore).1.success
      = true ∧
    (register_for_course regW SheetsService.failing 0 "20250101_000000" emptyStore).1.sheets_saved
      = false ∧
    pyContains
      (register_for_course regW SheetsService.failing 0 "20250101_000000" emptyStore).1.message
      degradedNotice = true :=
  ⟨(register_tolerates_failure regW SheetsService.failing 0 "20250101_000000" emptyStore).1,
   (register_tolerates_failure regW SheetsService.failing 0 "20250101_000000" emptyStore).2.1,
   (register_tolerates_failure regW SheetsService.failing 0 "20250101_000000" emptyStore).2.2 rfl⟩

/-- C8: producing a response never mutates the conversation store.  The
`/chat` handler's post-state is exactly the pre-state with the caller's one
append (performed after the response is produced); every other user's history
is unchanged; and the response is a function of the message, the caller's own
pre-state history and the completion client only — `generate_ai_response`
itself takes no store and returns none. -/
theorem respond_pure (user_id message : String) (client : Completion) (now : Nat)
    (store store' : ConvStore) :
    (chat_with_bot user_id message client now store).2
      = update_conversation_context user_id message
          (generate_ai_response message (get_conversation_context user_id store) client)
          now store ∧
    (∀ k, k ≠ user_id → (chat_with_bot user_id message client now store).2 k = store k) ∧
    (get_conversation_context user_id store = get_conversation_context user_id store' →
      (chat_with_bot user_id message client now store).1.response
        = (chat_with_bot user_id message client now store').1.response) := by
  refine ⟨rfl, fun k hk => update_conversation_context_other _ _ _ _ _ _ hk, fun h => ?_⟩
  show generate_ai_response message (get_conversation_context user_id store) client
      = generate_ai_response message (get_conversation_context user_id store') client
  rw [h]

/-- Witness for C8 at concrete inputs: a chat for `"u"` leaves `"v"`'s
history untouched, and two stores with the same history for `"u"` yield the
same response. -/
theorem respond_pure_witness :
    (chat_with_bot "u" "hey there" Completion.unconfigured 3 emptyStore).2 "v"
      = emptyStore "v" ∧
    (chat_with_bot "u" "hey there" Completion.unconfigured 3 emptyStore).1.response
      = (chat_with_bot "u" "hey there" Completion.unconfigured 3 emptyStore).1.response :=
  ⟨(respond_pure "u" "hey there" Completion.unconfigured 3 emptyStore emptyStore).2.1 "v"
      (by decide),
   (respond_pure "u" "hey there" Completion.unconfigured 3 emptyStore emptyStore).2.2 rfl⟩

/-- C9: the `/course-info` response's `course_details.name` is the configured
course name, and it is the very name substituted into the `/start` welcome
template (it occurs in the template, both drawn from `COURSE_INFO`). -/
theorem course_info_name_round_trip :
    get_course_info.course_details.name = COURSE_INFO.name ∧
    pyContains startWelcomeMessage get_course_info.course_details.name = true :=
  ⟨rfl, by decide⟩

/-- C10: the `/start` handler ignores the request's `message` field — the full
result (response and store) is identical for any two messages sent at the same
instant — and the recorded exchange stores the literal `"/start"` as the user
message. -/
theorem start_independent_of_message (user_id m1 m2 : String) (now : Nat)
    (store : ConvStore) :
    start_conversation user_id m1 now store = start_conversation user_id m2 now store ∧
    get_conversation_context user_id (start_conversation user_id m1 now store).2
      = [Exchange.mk "/start" startWelcomeMessage now] :=
  ⟨rfl, start_conversation_store user_id m1 now store⟩

end CourseBot
